import Mathlib

/-!
Shallow embedding of the DocumentGeneration repository
(main_program.py, schema_parser.py, doubao_llm.py, openai_llm.py).

Conventions of the embedding:
* Python strings are Lean `String`; internally the string operations of
  the source are modelled as structurally recursive functions on
  `List Char` (so that every definition evaluates by kernel reduction):
  `str.strip()` is `pyStrip`, `str.split(sep)` for the one-character
  separators the source uses is `pySplitChar`, `str.split(sep, 1)` is
  `pySplit1Char`, `str.split()` (no argument) is `pyWords`,
  `pat in s` is `containsSeq`, `str.lower()` is `pyLower`, and
  `int(s)` is `pythonInt`.  These model the ASCII behaviour of the
  CPython originals; the extra Unicode whitespace and digit classes
  CPython additionally accepts are outside the inputs this development
  evaluates.
* Python `None` for an optional string value is `Option.none`.
* Python dicts that the code only builds and looks up are association
  lists (`List (key × value)`); assignment `d[k] = v` is `updOrApp`
  (update the existing binding in place, else append), which preserves
  the insertion order that Python dict iteration exposes.
* Fallible Python code is `Except PyError α`; a raised and uncaught
  exception is `Except.error`.
* File system and HTTP effects are abstracted: the language-model
  backend is a parameter giving, per call, either the returned content
  or the raised failure; transcript file writes are not modelled.
-/

namespace DocGen

/-- Kinds of runtime exception this embedding distinguishes. -/
inductive PyError where
  | attributeError
  deriving DecidableEq, Repr

/-- Python `str.strip()`: drop whitespace from both ends. -/
def pyStrip (cs : List Char) : List Char :=
  ((cs.dropWhile Char.isWhitespace).reverse.dropWhile Char.isWhitespace).reverse

/-- Python `s.split(sep)` for a one-character separator: every
occurrence splits, empty pieces are kept, the empty string yields one
empty piece. -/
def pySplitChar (sep : Char) : List Char → List (List Char)
  | [] => [[]]
  | c :: rest =>
    let r := pySplitChar sep rest
    if c == sep then [] :: r else (c :: r.headD []) :: r.tail

/-- Python `s.split(sep, 1)` for a one-character separator, on a string
known to contain the separator: the part before its first occurrence
and everything after it. -/
def pySplit1Char (sep : Char) : List Char → List Char × List Char
  | [] => ([], [])
  | c :: rest =>
    if c == sep then ([], rest)
    else
      let p := pySplit1Char sep rest
      (c :: p.1, p.2)

/-- Helper for `pyWords`: split at every whitespace character, keeping
empty pieces. -/
def pySplitWsRaw : List Char → List (List Char)
  | [] => [[]]
  | c :: rest =>
    let r := pySplitWsRaw rest
    if c.isWhitespace then [] :: r else (c :: r.headD []) :: r.tail

/-- Python `s.split()` with no argument: split on whitespace runs,
discarding empty pieces. -/
def pyWords (cs : List Char) : List (List Char) :=
  (pySplitWsRaw cs).filter (fun t => !t.isEmpty)

/-- Python `pat in s` substring containment (for nonempty `pat`). -/
def containsSeq (pat : List Char) : List Char → Bool
  | [] => pat.isEmpty
  | c :: rest => pat.isPrefixOf (c :: rest) || containsSeq pat rest

/-- Python `str.lower()` (ASCII case folding, enough for the literal
comparison against the string nan made by the source). -/
def pyLower (cs : List Char) : List Char :=
  cs.map Char.toLower

/-- Tail of a Python integer literal after its first digit: a sequence
of digits in which a single underscore may stand between two digits. -/
def digitsTail : List Char → Bool
  | [] => true
  | '_' :: c :: rest => c.isDigit && digitsTail rest
  | '_' :: [] => false
  | c :: rest => c.isDigit && digitsTail rest

/-- A nonempty run of digits with underscores only between digits, as
Python `int` accepts after the optional sign. -/
def digitsOK : List Char → Bool
  | [] => false
  | c :: rest => c.isDigit && digitsTail rest

/-- Numeric value of a digit-and-underscore run. -/
def natOfDigits (l : List Char) : Nat :=
  (l.filter (fun c => c != '_')).foldl (fun n c => 10 * n + (c.toNat - 48)) 0

/-- Python `int(s)` on a string: strip whitespace, optional sign, then
the whole remainder must be a digit run (underscores allowed between
digits); otherwise a `ValueError` is raised, modelled as `none`. -/
def pythonInt (s : List Char) : Option Int :=
  match pyStrip s with
  | '+' :: rest => if digitsOK rest then some (natOfDigits rest : Int) else none
  | '-' :: rest => if digitsOK rest then some (-(natOfDigits rest : Int)) else none
  | cs => if digitsOK cs then some (natOfDigits cs : Int) else none

/-- Python dict assignment `d[k] = v` on an association list: update the
existing binding in place, else append at the end. -/
def updOrApp {α : Type} (l : List (String × α)) (k : String) (v : α) :
    List (String × α) :=
  match l with
  | [] => [(k, v)]
  | (k', v') :: t => if k' == k then (k, v) :: t else (k', v') :: updOrApp t k v

/-- Python dict lookup `d[k]` / `k in d` on an association list. -/
def alookup {α : Type} : List (String × α) → String → Option α
  | [], _ => none
  | (k, v) :: t, key => if k == key then some v else alookup t key

/-- The literal tag the judge prompt asks for and the loop scans lines
for (main_program.py line 269). -/
def scoreTag : List Char := ['S', 'c', 'o', 'r', 'e', ':']

/-- A judge-output line is selected when it contains `scoreTag`. -/
def lineHasScoreTag (line : List Char) : Bool :=
  containsSeq scoreTag line

/-- Faithful embedding of the score extraction of
main_program.py lines 268-272:

    try:
        score_line = [line for line in judge_output.split(CHR10) if SCORETAG in line][0]
        score = int(score_line.split(COLON)[1].strip().split()[0])
    except:
        score = 1

Every failing step (no matching line, no piece after the first colon,
no token, token not an integer literal) lands in the bare except and
yields 1. -/
def extractScore (judge_output : String) : Int :=
  match (pySplitChar '\n' judge_output.toList).find? lineHasScoreTag with
  | none => 1
  | some score_line =>
    match (pySplitChar ':' score_line)[1]? with
    | none => 1
    | some seg =>
      match (pyWords (pyStrip seg)).head? with
      | none => 1
      | some tok =>
        match pythonInt tok with
        | none => 1
        | some n => n

/-- Maximal leading digit run of a token, after an optional sign: the
leading-integer parse that the claim wording describes. -/
def leadingInt (s : List Char) : Option Int :=
  match s with
  | '+' :: rest =>
    if (rest.takeWhile Char.isDigit).isEmpty then none
    else some (natOfDigits (rest.takeWhile Char.isDigit) : Int)
  | '-' :: rest =>
    if (rest.takeWhile Char.isDigit).isEmpty then none
    else some (-(natOfDigits (rest.takeWhile Char.isDigit) : Int))
  | cs =>
    if (cs.takeWhile Char.isDigit).isEmpty then none
    else some (natOfDigits (cs.takeWhile Char.isDigit) : Int)

/-- Transcription of the extraction policy exactly as the claim words
it: first line containing the score tag, token after the colon, parse
of its leading integer, default 1 on any failure. -/
def scoreExtractionClaimed (judge_output : String) : Int :=
  ((((pySplitChar '\n' judge_output.toList).find? lineHasScoreTag).bind (fun line =>
    ((pySplitChar ':' line)[1]?).bind (fun seg =>
      (pyWords (pyStrip seg)).head?.bind leadingInt))).getD 1)

/-- The amended extraction policy, written declaratively: first line
containing the score tag, the segment of that line between its first
and second colons (element 1 of the colon split — so the line Score
colon 4 colon 30pm yields the segment holding 4, not the token
4:30pm), its first whitespace token, parsed in full by Python int;
default 1 on any failure. -/
def scoreExtractionAmended (judge_output : String) : Int :=
  ((((pySplitChar '\n' judge_output.toList).find? lineHasScoreTag).bind (fun line =>
    ((pySplitChar ':' line)[1]?).bind (fun seg =>
      (pyWords (pyStrip seg)).head?.bind pythonInt))).getD 1)

/-- Observable outcome of one call of iterative_summary_improvement,
restricted to the control-flow facts this development reasons about.
`perfectScoreMsg` records whether the block guarded by score >= 5
(main_program.py line 293) runs; `maxIterMsg` records whether the block
guarded by iteration > max_iterations (line 304) runs. -/
structure LoopRun where
  iterationsRun : Nat
  finalScore : Int
  perfectScoreMsg : Bool
  maxIterMsg : Bool
  deriving DecidableEq, Repr

/-- Faithful embedding of the control flow of
iterative_summary_improvement (main_program.py lines 199-311),
parameterised by the raw judge outputs of each cycle (1-indexed).

Initial state (lines 201-202): iteration = 1, score = 0.  The while
condition (line 221) is score < score_threshold and
iteration <= max_iterations.  The loop body generates a summary, judges
it, parses the score (lines 268-272, embedded as `extractScore`) and
then reaches the unconditional break at line 300, which sits at loop
level, outside the score >= 5 block: the statement iteration += 1 at
line 302 is unreachable, so at most one cycle ever executes and
iteration is still 1 after the loop.  File writes and the generated
draft text are abstracted away. -/
def iterative_summary_improvement (score_threshold max_iterations : Int)
    (judgeOutput : Nat → String) : LoopRun :=
  if (0 : Int) < score_threshold ∧ (1 : Int) ≤ max_iterations then
    let s := extractScore (judgeOutput 1)
    { iterationsRun := 1
      finalScore := s
      perfectScoreMsg := decide ((5 : Int) ≤ s)
      maxIterMsg := decide ((1 : Int) > max_iterations) }
  else
    { iterationsRun := 0
      finalScore := 0
      perfectScoreMsg := false
      maxIterMsg := decide ((1 : Int) > max_iterations) }

/-- schema_parser.py lines 7-13: metadata of one data field. -/
structure Fieldschema where
  name : String
  category : String
  description : String
  is_multi_select : Bool
  deriving DecidableEq, Repr

/-- The fixed category display-label table of schema_parser.py
lines 21-27 (self.categories). -/
def categories : List (String × String) :=
  [("基礎信息", "Basic Information"),
   ("互動與偏好", "Interaction & Preferences"),
   ("財務数據", "Financial Data"),
   ("交易行為", "Transaction Behavior"),
   ("風險評估", "Risk Assessment")]

/-- The multi-select marker literal of schema_parser.py line 60. -/
def multiSelectMarker : List Char := ['【', '多', '選', '】']

/-- One pass of the line loop of parseschema (schema_parser.py
lines 45-70) on the schema dict built so far.  A line without a colon,
or whose part after the first colon has no comma, is skipped.  When the
description contains the multi-select marker, line 62 invokes the
nonexistent string method stríp (a typo for strip, with an accented í),
so Python raises AttributeError there; the embedding returns that
error. -/
def processSchemaLine (acc : List (String × Fieldschema)) (line : List Char) :
    Except PyError (List (String × Fieldschema)) :=
  if containsSeq [':'] line then
    let parts := pySplit1Char ':' line
    let field_name := String.mk (pyStrip parts.1)
    let description_part := pyStrip parts.2
    if containsSeq [','] description_part then
      let category_desc := pySplit1Char ',' description_part
      let category := String.mk (pyStrip category_desc.1)
      let description := pyStrip category_desc.2
      if containsSeq multiSelectMarker description then
        Except.error PyError.attributeError
      else
        Except.ok (updOrApp acc field_name
          { name := field_name
            category := category
            description := String.mk description
            is_multi_select := false })
    else
      Except.ok acc
  else
    Except.ok acc

/-- Faithful embedding of parseschema (schema_parser.py lines 41-70):
strip the content, split into lines, and feed each line through
`processSchemaLine`; an exception raised on one line aborts the whole
parse, as it does in Python. -/
def parseschema (schema_content : String) :
    Except PyError (List (String × Fieldschema)) :=
  (pySplitChar '\n' (pyStrip schema_content.toList)).foldl
    (fun acc line =>
      match acc with
      | Except.error e => Except.error e
      | Except.ok dict => processSchemaLine dict line)
    (Except.ok [])

/-- Faithful embedding of parsecsv_data (schema_parser.py lines 72-91):
strip, split into lines; fewer than two lines yields the empty dict;
otherwise pair the comma-separated header and value rows by position
(extra headers and extra values dropped), strip each cell, and map
empty or case-insensitive nan values to `none` (Python None). -/
def parsecsv_data (csv_content : String) : List (String × Option String) :=
  let lines := pySplitChar '\n' (pyStrip csv_content.toList)
  if lines.length < 2 then []
  else
    let headers := pySplitChar ',' (lines.headD [])
    let values := pySplitChar ',' ((lines.get? 1).getD [])
    headers.enum.foldl
      (fun dict p =>
        match values.get? p.1 with
        | none => dict
        | some raw =>
          let value := pyStrip raw
          let v : Option String :=
            if value.isEmpty || pyLower value == ['n', 'a', 'n'] then none
            else some (String.mk value)
          updOrApp dict (String.mk (pyStrip p.2)) v)
      []

/-- The per-field entry stored by categorize_data (schema_parser.py
lines 105-109). -/
structure FieldInfo where
  value : Option String
  description : String
  is_multi_select : Bool
  deriving DecidableEq, Repr

/-- One pass of the field loop of categorize_data (schema_parser.py
lines 97-109) on the categorized dict built so far: a field present in
the schema is filed under its schema category, creating the category on
first use; fields absent from the schema are dropped. -/
def categorizeStep (schema : List (String × Fieldschema))
    (categorized : List (String × List (String × FieldInfo)))
    (p : String × Option String) :
    List (String × List (String × FieldInfo)) :=
  match alookup schema p.1 with
  | none => categorized
  | some field_schema =>
    let inner := (alookup categorized field_schema.category).getD []
    updOrApp categorized field_schema.category
      (updOrApp inner p.1
        { value := p.2
          description := field_schema.description
          is_multi_select := field_schema.is_multi_select })

/-- Faithful embedding of categorize_data (schema_parser.py
lines 93-111): walk the record in order, filing each field through
`categorizeStep`. -/
def categorize_data (schema : List (String × Fieldschema))
    (data_dict : List (String × Option String)) :
    List (String × List (String × FieldInfo)) :=
  data_dict.foldl (categorizeStep schema) []

/-- The fixed category output order of schema_parser.py line 125. -/
def category_order : List String :=
  ["基礎信息", "互動與偏好", "財務数據", "交易行為", "風險評估"]

/-- The fixed display-value lookup table of schema_parser.py
lines 160-167 (value_mappings inside _format_value). -/
def value_mappings : List (String × String) :=
  [("Y", "是(Yes)"),
   ("N", "否(No)"),
   ("Male", "男性"),
   ("Female", "女性"),
   ("Single", "單身"),
   ("Married", "已婚")]

/-- Faithful embedding of _format_value (schema_parser.py
lines 154-173): None renders as the literal N/A; a value found in
`value_mappings` renders as value(label); any other value renders
unchanged.  The field name is accepted, as in the source, but never
used. -/
def format_value (field_name : String) (value : Option String) : String :=
  match value with
  | none => "N/A"
  | some v =>
    match alookup value_mappings v with
    | none => v
    | some label => v ++ "(" ++ label ++ ")"

/-- Python `data_dict.get(key, emptyString)` as used throughout
_generate_key_insights: the stored value when the key is present (which
may be None), else the empty-string default. -/
def pyGet (data_dict : List (String × Option String)) (key : String) :
    Option String :=
  match alookup data_dict key with
  | some v => v
  | none => some ""

/-- Python truthiness of a string-or-None value: None and the empty
string are falsy. -/
def truthy : Option String → Bool
  | none => false
  | some s => s != ""

/-- Rendering of a string-or-None value inside an f-string (only
reached under truthiness guards, where it is the stored string). -/
def strOf : Option String → String
  | none => "None"
  | some s => s

/-- The risk-level label table of schema_parser.py lines 203-209. -/
def risk_descriptions : List (String × String) :=
  [("1", "Conservative"),
   ("2", "Conservative to Moderate"),
   ("3", "Moderate"),
   ("4", "Moderate to Aggressive"),
   ("5", "Aggressive")]

/-- Faithful embedding of _generate_key_insights (schema_parser.py
lines 175-224): the fixed ordered battery of heuristic rules, each
appending zero or more strings to the insight list. -/
def generate_key_insights (data_dict : List (String × Option String)) :
    List String :=
  let insights : List String := []
  let age_group := pyGet data_dict "age_group"
  let life_stage := pyGet data_dict "life_stage"
  let insights :=
    if truthy age_group && truthy life_stage then
      insights ++ [strOf life_stage ++ " in age group " ++ strOf age_group]
    else insights
  let trb_range := pyGet data_dict "trb_range"
  let allocation_cash := pyGet data_dict "allocation_cash"
  let allocation_inv := pyGet data_dict "allocation_inv"
  let insights :=
    if truthy trb_range && truthy allocation_cash then
      let insights := insights ++
        ["Total wealth " ++ strOf trb_range ++ " with " ++
          strOf allocation_cash ++ " cash allocation"]
      if allocation_inv == some "0.00%" then
        insights ++
          ["No investment products held despite significant wealth - opportunity for portfolio diversification"]
      else insights
    else insights
  let trans_security := pyGet data_dict "trans security"
  let hldg_INV := pyGet data_dict "hldg INV"
  let insights :=
    if truthy trans_security && !(trans_security == some "0") &&
        hldg_INV == some "N" then
      insights ++
        ["Active in securities trading (" ++ strOf trans_security ++
          " transactions) but no investment products held"]
    else insights
  let rpq_level := pyGet data_dict "rpq_level"
  let insights :=
    if truthy rpq_level then
      let risk_desc :=
        (alookup risk_descriptions (strOf rpq_level)).getD
          ("Level " ++ strOf rpq_level)
      insights ++ ["Risk profile: " ++ risk_desc]
    else insights
  let child := pyGet data_dict "child"
  let ms := pyGet data_dict "MS"
  let insights :=
    if child == some "Y" && ms == some "Single" then
      insights ++
        ["single parent with children - may need education planning and protection products"]
    else insights
  let fhc_goal_type := pyGet data_dict "fhc_goal_type"
  let insights :=
    if truthy fhc_goal_type then
      insights ++ ["Financial goal: " ++ strOf fhc_goal_type]
    else insights
  insights

/-- The output line of one field inside its category section
(schema_parser.py lines 134-143). -/
def fieldLine (f : String × FieldInfo) : String :=
  "- " ++ f.1 ++ " (" ++ f.2.description ++ "): " ++ format_value f.1 f.2.value

/-- One pass of the category loop of format_customer_data_section
(schema_parser.py lines 127-143) on the section list built so far: a
category absent from the categorized data appends nothing; a present
one appends its bilingual header line and then one line per field. -/
def formatCategoryStep (categorized : List (String × List (String × FieldInfo)))
    (sections : List String) (category : String) : List String :=
  match alookup categorized category with
  | none => sections
  | some fields =>
    let english_category := (alookup categories category).getD category
    let sections := sections ++ ["\n" ++ category ++ "(" ++ english_category ++ "):"]
    fields.foldl (fun sections f => sections ++ [fieldLine f]) sections

/-- The contiguous output block one category contributes: nothing when
the category is absent from the categorized data, else its header line
followed by one line per field. -/
def categoryBlock (categorized : List (String × List (String × FieldInfo)))
    (category : String) : List String :=
  match alookup categorized category with
  | none => []
  | some fields =>
    ("\n" ++ category ++ "(" ++ ((alookup categories category).getD category) ++ "):")
      :: fields.map fieldLine

/-- Whether some field of the record is mapped by the schema into the
given category — exactly when the formatted profile renders a section
for that category. -/
def hasFieldInCategory (schema : List (String × Fieldschema))
    (data_dict : List (String × Option String)) (category : String) : Bool :=
  data_dict.any (fun p =>
    match alookup schema p.1 with
    | some fs => fs.category == category
    | none => false)

/-- The numbered-insight block appended when insights are requested
(schema_parser.py lines 146-150). -/
def insightsBlock (data_dict : List (String × Option String)) : List String :=
  "\n\nKEY INSIGHTS TO CONSIDER:" ::
    (generate_key_insights data_dict).enum.map
      (fun p => toString (p.1 + 1) ++ ". " ++ p.2)

/-- The body of format_customer_data_section after the parse step
(schema_parser.py lines 118-152), as the ordered list of section
strings that line 152 joins with a newline: the title, then the
category loop over `category_order`, then the numbered insights when
requested.  Embedded as a function of the parsed record because
line 116 of the source never gets past its attribute lookup (see
`format_customer_data_section`). -/
def format_customer_data_body (schema : List (String × Fieldschema))
    (data_dict : List (String × Option String)) (include_insights : Bool) :
    List String :=
  let categorized_data := categorize_data schema data_dict
  let sections : List String := ["Customer Data Analysis:\n"]
  let sections := category_order.foldl (formatCategoryStep categorized_data) sections
  if include_insights then sections ++ insightsBlock data_dict
  else sections

/-- Faithful embedding of format_customer_data_section
(schema_parser.py lines 113-152).  Its first statement, line 116, is
`self.parse_csv_data(csv_content)` — but the class defines the method
under the name parsecsv_data (line 72), so Python attribute lookup
fails and every call raises AttributeError before any parsing or
formatting happens.  The rest of the method body is embedded separately
as `format_customer_data_body`. -/
def format_customer_data_section (schema : List (String × Fieldschema))
    (csv_content : String) (include_insights : Bool) :
    Except PyError String :=
  Except.error PyError.attributeError

/-- Outcome of the raw backend call underlying one invoke: either the
content string the backend returned, or the exception message of a
network/API failure. -/
def BackendOutcome : Type := Except String String

/-- Faithful embedding of DoubaoLLM.invoke (doubao_llm.py lines 9-28):
the whole HTTP call sits in a try block whose except returns the
literal string Fail to invoke DOUBAO api followed by the exception
text, so a backend failure comes back as ordinary content and nothing
is raised. -/
def DoubaoLLM.invoke (backend : Except String String) : Except String String :=
  match backend with
  | Except.ok content => Except.ok content
  | Except.error e => Except.ok ("Fail to invoke DOUBAO api: " ++ e)

/-- Faithful embedding of OpenAILLM.invoke (openai_llm.py
lines 12-17): the completion call has no try block, so a backend
failure propagates to the caller as a raised exception. -/
def OpenAILLM.invoke (backend : Except String String) : Except String String :=
  backend

/-! ## Helper lemmas -/

theorem foldl_append_singleton {α : Type} (g : α → String) (l : List α)
    (secs : List String) :
    l.foldl (fun s a => s ++ [g a]) secs = secs ++ l.map g := by
  induction l generalizing secs with
  | nil => simp
  | cons a t ih => simp [ih, List.append_assoc]

theorem alookup_updOrApp {α : Type} (l : List (String × α)) (k c : String) (v : α) :
    alookup (updOrApp l k v) c = if k == c then some v else alookup l c := by
  induction l with
  | nil => simp [updOrApp, alookup]
  | cons hd t ih =>
    obtain ⟨k', v'⟩ := hd
    by_cases hk : k' = k
    · subst hk
      by_cases hc : k' = c <;> simp [updOrApp, alookup, hc]
    · have hkk : (k' == k) = false := beq_false_of_ne hk
      by_cases hc : k' = c
      · subst hc
        have hkc : (k == k') = false := beq_false_of_ne (Ne.symm hk)
        simp [updOrApp, hkk, alookup, hkc]
      · have hkc' : (k' == c) = false := beq_false_of_ne hc
        simp [updOrApp, hkk, alookup, hkc', ih]

theorem categorize_lookup_none_aux (schema : List (String × Fieldschema))
    (c : String) :
    ∀ (dd : List (String × Option String))
      (acc : List (String × List (String × FieldInfo))),
      alookup acc c = none → hasFieldInCategory schema dd c = false →
      (alookup (dd.foldl (categorizeStep schema) acc) c = none) := by
  intro dd
  induction dd with
  | nil => intro acc hacc _; simpa using hacc
  | cons p t ih =>
    intro acc hacc hany
    rw [hasFieldInCategory, List.any_cons, Bool.or_eq_false_iff] at hany
    obtain ⟨h1, h2⟩ := hany
    rw [List.foldl_cons]
    cases hs : alookup schema p.1 with
    | none =>
      have hstep : categorizeStep schema acc p = acc := by
        simp [categorizeStep, hs]
      rw [hstep]
      exact ih acc hacc h2
    | some fs =>
      have hcat : (fs.category == c) = false := by simpa [hs] using h1
      have hstep : categorizeStep schema acc p =
          updOrApp acc fs.category
            (updOrApp ((alookup acc fs.category).getD []) p.1
              { value := p.2
                description := fs.description
                is_multi_select := fs.is_multi_select }) := by
        simp [categorizeStep, hs]
      rw [hstep]
      apply ih
      · rw [alookup_updOrApp]
        simp [hcat, hacc]
      · exact h2

theorem categorize_lookup_eq_none (schema : List (String × Fieldschema))
    (dd : List (String × Option String)) (c : String)
    (h : hasFieldInCategory schema dd c = false) :
    alookup (categorize_data schema dd) c = none :=
  categorize_lookup_none_aux schema c dd [] rfl h

theorem filter_bind_of_empty {β : Type} (p : String → Bool)
    (g : String → List β) :
    ∀ (order : List String), (∀ c, p c = false → g c = []) →
      (order.filter p).flatMap g = order.flatMap g := by
  intro order h
  induction order with
  | nil => rfl
  | cons a t ih =>
    by_cases ha : p a
    · simp [List.filter_cons, ha, ih]
    · have ha' : p a = false := by simpa using ha
      simp [List.filter_cons, ha', h a ha', ih]

theorem foldl_formatCategoryStep
    (categorized : List (String × List (String × FieldInfo))) :
    ∀ (order : List String) (secs : List String),
      order.foldl (formatCategoryStep categorized) secs =
        secs ++ order.flatMap (categoryBlock categorized) := by
  intro order
  induction order with
  | nil => intro secs; simp
  | cons a t ih =>
    intro secs
    rw [List.foldl_cons, List.flatMap_cons, ih]
    cases hl : alookup categorized a with
    | none => simp [formatCategoryStep, categoryBlock, hl]
    | some fields =>
      have hstep : formatCategoryStep categorized secs a =
          secs ++ categoryBlock categorized a := by
        simp [formatCategoryStep, categoryBlock, hl,
          foldl_append_singleton, List.append_assoc]
      rw [hstep, List.append_assoc]

/-! ## Claims -/

/-- C1: the claim says that with scoreThreshold 5 and maxIterations 3,
evaluator scores 3 then 5 give exactly 2 cycles ending in ScoreMet,
and in general a below-threshold score with index below maxIterations
returns the loop to Generating.  The code does not: the unconditional
break at main_program.py line 300 stops the loop after its first cycle
(the increment at line 302 is unreachable), so this run executes one
cycle, ends with score 3, and triggers neither the perfect-score block
nor the budget-exhausted block. -/
theorem loop_stops_after_first_cycle :
    iterative_summary_improvement 5 3
        (fun n => if n = 1 then "Score: 3" else "Score: 5") =
      { iterationsRun := 1
        finalScore := 3
        perfectScoreMsg := false
        maxIterMsg := false } := by
  decide

/-- C2: for every run of the loop with a non-negative iteration budget,
the number of executed generate/evaluate cycles is at most
maxIterations, whatever the judge outputs are. -/
theorem iterations_at_most_budget (score_threshold max_iterations : Int)
    (judgeOutput : Nat → String) (h : 0 ≤ max_iterations) :
    ((iterative_summary_improvement score_threshold max_iterations
        judgeOutput).iterationsRun : Int) ≤ max_iterations := by
  unfold iterative_summary_improvement
  split
  · rename_i hc
    simpa using hc.2
  · simpa using h

theorem iterations_at_most_budget_check :
    (0 : Int) ≤ 3 ∧
      ((iterative_summary_improvement 5 3
          (fun _ => "Score: 3")).iterationsRun : Int) ≤ 3 :=
  ⟨by decide, iterations_at_most_budget 5 3 (fun _ => "Score: 3") (by decide)⟩

/-- C3 counterexample: on the judge output consisting of the line
Score: 5pts, the extraction the claim describes (leading-integer parse
of the token) yields 5, but the code parses the whole token with
Python int, fails, and defaults to 1. -/
theorem score_extraction_leading_integer_refuted :
    scoreExtractionClaimed "Score: 5pts" = 5 ∧
      extractScore "Score: 5pts" = 1 := by
  constructor <;> decide

/-- C3 as amended: for every evaluator output, the score the code
extracts equals the declarative policy that takes the first line
containing the score tag, the segment of that line between its first
and second colons, the first whitespace token of that segment, parses
that entire token as a Python integer, and defaults to 1 when no such
line exists or any step fails — never raising. -/
theorem score_extraction_amended_holds (judge_output : String) :
    extractScore judge_output = scoreExtractionAmended judge_output := by
  unfold extractScore scoreExtractionAmended
  rcases h1 : (pySplitChar '\n' judge_output.toList).find? lineHasScoreTag with _ | line
  · simp [h1]
  · rcases h2 : (pySplitChar ':' line)[1]? with _ | seg
    · simp [h1, h2]
    · rcases h3 : (pyWords (pyStrip seg)).head? with _ | tok
      · simp [h1, h2, h3]
      · rcases h4 : pythonInt tok with _ | n
        · simp [h1, h2, h3, h4]
        · simp [h1, h2, h3, h4]

/-- C4: the claim says parse plus format never raises on a two-line
input with equal column counts.  On such an input the parse alone
succeeds, but format_customer_data_section raises AttributeError on
every call, because its line 116 looks up the method name
parse_csv_data while the class defines parsecsv_data. -/
theorem format_raises_despite_equal_columns :
    parsecsv_data "age_group,trb_range\n35-44,1M-5M" =
        [("age_group", some "35-44"), ("trb_range", some "1M-5M")] ∧
      format_customer_data_section [] "age_group,trb_range\n35-44,1M-5M" false =
        Except.error PyError.attributeError :=
  ⟨by decide, rfl⟩

/-- C5: for every field name and record value, the display value
produced by the value formatter is exactly one of: the literal N/A when
the value is absent, rawValue(localizedLabel) when the raw value is in
the fixed lookup table, or the raw value unchanged otherwise. -/
theorem display_value_trichotomy (field_name : String) (value : Option String) :
    (value = none ∧ format_value field_name value = "N/A") ∨
    (∃ raw label, value = some raw ∧ alookup value_mappings raw = some label ∧
      format_value field_name value = raw ++ "(" ++ label ++ ")") ∨
    (∃ raw, value = some raw ∧ alookup value_mappings raw = none ∧
      format_value field_name value = raw) := by
  cases value with
  | none => exact Or.inl ⟨rfl, rfl⟩
  | some v =>
    cases h : alookup value_mappings v with
    | none =>
      exact Or.inr (Or.inr ⟨v, rfl, h, by simp [format_value, h]⟩)
    | some label =>
      exact Or.inr (Or.inl ⟨v, label, rfl, h, by simp [format_value, h]⟩)

/-- C6: the claim says no line ever makes the schema parse raise
(malformed lines are silently skipped, failure only on I/O).  Malformed
lines are indeed skipped, but a well-formed line whose description
carries the multi-select marker makes the parse raise AttributeError,
because schema_parser.py line 62 invokes the nonexistent string method
stríp (accented í, a typo for strip). -/
theorem parseschema_raises_on_multiselect_line :
    parseschema "no colon here\nfield_b:no comma after colon" = Except.ok [] ∧
      parseschema "hobby:互動與偏好,愛好【多選】" =
        Except.error PyError.attributeError :=
  ⟨rfl, rfl⟩

/-- C7: for every schema, record and insights flag, the formatted
profile is the title followed by the category blocks taken exactly in
the fixed predefined order 基礎信息, 互動與偏好, 財務数據, 交易行為,
風險評估, restricted to the categories into which the schema maps at
least one record field — every category with no present field
contributes nothing — followed by the insight block when requested. -/
theorem profile_sections_in_fixed_order (schema : List (String × Fieldschema))
    (data_dict : List (String × Option String)) (include_insights : Bool) :
    format_customer_data_body schema data_dict include_insights =
      "Customer Data Analysis:\n" ::
        (((category_order.filter (hasFieldInCategory schema data_dict)).flatMap
            (categoryBlock (categorize_data schema data_dict)))
          ++ (if include_insights then insightsBlock data_dict else [])) := by
  have hfb : (category_order.filter (hasFieldInCategory schema data_dict)).flatMap
      (categoryBlock (categorize_data schema data_dict)) =
      category_order.flatMap (categoryBlock (categorize_data schema data_dict)) := by
    apply filter_bind_of_empty
    intro c hc
    simp [categoryBlock, categorize_lookup_eq_none schema data_dict c hc]
  rw [hfb]
  cases include_insights <;>
    simp [format_customer_data_body, foldl_formatCategoryStep]

/-- C8: the claim says every configured provider turns a backend
failure into literal error-describing content instead of raising; the
OpenAI provider does not — its invoke has no handler, so the failure
propagates to the caller. -/
theorem openai_invoke_propagates_failure :
    OpenAILLM.invoke (Except.error "connection refused") =
      Except.error "connection refused" :=
  rfl

/-- C8 as amended: for every backend failure, the Doubao provider
recovers locally by returning the literal error-describing text as
content, while the OpenAI provider performs no local recovery and
propagates the failure. -/
theorem backend_failure_recovery_per_provider (e : String) :
    DoubaoLLM.invoke (Except.error e) =
        Except.ok ("Fail to invoke DOUBAO api: " ++ e) ∧
      OpenAILLM.invoke (Except.error e) = Except.error e :=
  ⟨rfl, rfl⟩

/-- C9: for every customer input text with fewer than two lines after
trimming, CSV parsing returns the empty record and raises nothing. -/
theorem parsecsv_empty_on_short_input (csv_content : String)
    (h : (pySplitChar '\n' (pyStrip csv_content.toList)).length < 2) :
    parsecsv_data csv_content = [] := by
  simp only [parsecsv_data]
  rw [if_pos h]

theorem parsecsv_empty_on_short_input_check :
    (pySplitChar '\n' (pyStrip "age_group".toList)).length < 2 ∧
      parsecsv_data "age_group" = [] :=
  ⟨by decide, parsecsv_empty_on_short_input "age_group" (by decide)⟩

/-- C10: the bilingual display lookup ignores the field name — for
every field, each of the six mapped raw values renders as
value(label), whichever field carries it. -/
theorem value_mapping_ignores_field_name (field_name : String) :
    format_value field_name (some "Y") = "Y(是(Yes))" ∧
    format_value field_name (some "N") = "N(否(No))" ∧
    format_value field_name (some "Male") = "Male(男性)" ∧
    format_value field_name (some "Female") = "Female(女性)" ∧
    format_value field_name (some "Single") = "Single(單身)" ∧
    format_value field_name (some "Married") = "Married(已婚)" :=
  ⟨rfl, rfl, rfl, rfl, rfl, rfl⟩

end DocGen
